import Mathlib

/-!
Verification development for the Scout music scraper
(`src/scraper.py`, `src/main.py`).

The extraction pipeline of `PlaywrightManager.search_tracks`, the
control flow of the search routine, the `start`/`stop` session
lifecycle and the `/search` endpoint's validation step are embedded
shallowly below; every definition is translated from the source.
-/

namespace Scout

/-- Python's `str.strip()` with no argument: remove leading and
trailing whitespace. -/
def pyStrip (s : String) : String :=
  ⟨((s.data.dropWhile Char.isWhitespace).reverse.dropWhile
      Char.isWhitespace).reverse⟩

/-- Python truthiness of an optional string (`None` and `""` are falsy,
any other string is truthy), as used by `any([...])` in
`search_tracks`. -/
def truthy : Option String → Bool
  | none => false
  | some s => !(s == "")

/-- One rendered result row, as seen by the extraction loop of
`search_tracks`: the five values read from the DOM
(`text_content` / `get_attribute` each return a string or `None`). -/
structure Row where
  artist : Option String
  title : Option String
  duration : Option String
  download : Option String
  stream : Option String
deriving Repr, DecidableEq

/-- The guard `any([artist, title, duration, download, stream])` of
`search_tracks` (line 152): the row is kept iff some raw field is a
non-empty string.  Note the raw values are tested, before any
trimming. -/
def rowKeep (r : Row) : Bool :=
  truthy r.artist || truthy r.title || truthy r.duration ||
  truthy r.download || truthy r.stream

/-- One record appended to `results` by `search_tracks`
(lines 155-164): text fields default to `""` and are stripped,
`duration` is passed through raw. -/
structure TrackRec where
  id : Nat
  artist : String
  title : String
  duration : Option String
  download : String
  stream : String
deriving Repr, DecidableEq

/-- The dict built at lines 155-164 for a kept row, where `n` is
`len(results) + 1` at the moment of appending. -/
def mkRec (n : Nat) (r : Row) : TrackRec :=
  { id := n
    artist := pyStrip (r.artist.getD "")
    title := pyStrip (r.title.getD "")
    duration := r.duration
    download := pyStrip (r.download.getD "")
    stream := pyStrip (r.stream.getD "") }

/-- The body of the `for idx in range(1, total)` loop of
`search_tracks` (lines 142-164), with the accumulated `results` list
passed explicitly; ids are assigned as `len(results) + 1`. -/
def extractLoop : List Row → List TrackRec → List TrackRec
  | [], acc => acc
  | r :: rs, acc =>
      if rowKeep r then
        extractLoop rs (acc ++ [mkRec (acc.length + 1) r])
      else
        extractLoop rs acc

/-- Extraction over all rendered rows.  The Python loop runs
`range(1, total)` with 0-based `items.nth(idx)`, so the first matched
row is never processed: only `rows.drop 1` goes through the loop. -/
def extractRows (rows : List Row) : List TrackRec :=
  extractLoop (rows.drop 1) []

/-- Direct form of the loop: records built from position `k` onward
(the accumulator already holds `k` records). -/
def extractFrom (k : Nat) : List Row → List TrackRec
  | [] => []
  | r :: rs =>
      if rowKeep r then mkRec (k + 1) r :: extractFrom (k + 1) rs
      else extractFrom k rs

theorem extractLoop_eq (rows : List Row) :
    ∀ acc : List TrackRec,
      extractLoop rows acc = acc ++ extractFrom acc.length rows := by
  induction rows with
  | nil => intro acc; simp [extractLoop, extractFrom]
  | cons r rs ih =>
      intro acc
      by_cases h : rowKeep r
      · simp [extractLoop, extractFrom, h, ih]
      · simp [extractLoop, extractFrom, h, ih]

theorem extractRows_eq (rows : List Row) :
    extractRows rows = extractFrom 0 (rows.drop 1) := by
  have h := extractLoop_eq (rows.drop 1) []
  simpa [extractRows] using h

/-- The five data fields of a record, with the id forgotten. -/
def recFields (t : TrackRec) :
    String × String × Option String × String × String :=
  (t.artist, t.title, t.duration, t.download, t.stream)

/-- The data fields a kept row is turned into. -/
def rowFields (r : Row) :
    String × String × Option String × String × String :=
  (pyStrip (r.artist.getD ""), pyStrip (r.title.getD ""), r.duration,
   pyStrip (r.download.getD ""), pyStrip (r.stream.getD ""))

theorem extractFrom_fields (rows : List Row) :
    ∀ k, (extractFrom k rows).map recFields =
      (rows.filter rowKeep).map rowFields := by
  induction rows with
  | nil => intro k; simp [extractFrom]
  | cons r rs ih =>
      intro k
      by_cases h : rowKeep r
      · simp [extractFrom, h, ih, recFields, rowFields, mkRec]
      · simp [extractFrom, h, ih]

theorem extractFrom_length (rows : List Row) :
    ∀ k, (extractFrom k rows).length = (rows.filter rowKeep).length := by
  intro k
  have := congrArg List.length (extractFrom_fields rows k)
  simpa using this

theorem extractFrom_ids (rows : List Row) :
    ∀ k, (extractFrom k rows).map TrackRec.id =
      List.range' (k + 1) (rows.filter rowKeep).length := by
  induction rows with
  | nil => intro k; simp [extractFrom]
  | cons r rs ih =>
      intro k
      by_cases h : rowKeep r
      · simp [extractFrom, h, ih, mkRec, List.range']
      · simp [extractFrom, h, ih]

/-- Formalisation of the spec's emission condition, following its
words: "at least one of {artist, title, duration, downloadUrl,
streamUrl} is non-empty after trimming".  (`duration` is an attribute
value; trimming it is harmless for the comparison.) -/
def specTrimmedUsable (r : Row) : Bool :=
  !(pyStrip (r.artist.getD "") == "") || !(pyStrip (r.title.getD "") == "") ||
  !(pyStrip (r.duration.getD "") == "") || !(pyStrip (r.download.getD "") == "") ||
  !(pyStrip (r.stream.getD "") == "")

/-- A row whose every field is absent. -/
def blankRow : Row := ⟨none, none, none, none, none⟩

/-- A row whose only content is a title. -/
def titledRow (s : String) : Row := ⟨none, some s, none, none, none⟩

/-- Five rendered rows in which exactly the LAST row is fully blank. -/
def rowsBlankLast : List Row :=
  [titledRow "t1", titledRow "t2", titledRow "t3", titledRow "t4", blankRow]

/-- Five rendered rows in which exactly the FIRST row is fully blank. -/
def rowsBlankFirst : List Row :=
  [blankRow, titledRow "t1", titledRow "t2", titledRow "t3", titledRow "t4"]

/-- C1 counterexample: a page rendering 5 result rows, exactly one of
which (the last) has every field blank, yields only 3 records — not
the 4 records in row order the claim promises — because the loop
`range(1, total)` skips the first rendered row unconditionally. -/
theorem c1_counterexample :
    rowsBlankLast.length = 5 ∧
    (rowsBlankLast.filter (fun r => !rowKeep r)).length = 1 ∧
    (extractRows rowsBlankLast).length = 3 := by
  refine ⟨by decide, by decide, by decide⟩

/-- C1 (amended): the first rendered row is always skipped; each
remaining row with at least one non-empty raw field yields exactly one
record, so the 5-row scenario returns 4 records with ids 1-4 in row
order exactly when the blank row is the first one. -/
theorem c1_amended (r0 : Row) (rest : List Row) :
    (extractRows (r0 :: rest)).length = (rest.filter rowKeep).length ∧
    extractRows rowsBlankFirst =
      [⟨1, "", "t1", none, "", ""⟩, ⟨2, "", "t2", none, "", ""⟩,
       ⟨3, "", "t3", none, "", ""⟩, ⟨4, "", "t4", none, "", ""⟩] := by
  constructor
  · rw [extractRows_eq]
    simpa using extractFrom_length rest 0
  · decide

/-- A row containing a single whitespace-only field. -/
def whitespaceRow : Row := ⟨some " ", none, none, none, none⟩

/-- C2 counterexample: a row whose every field is empty AFTER trimming
(its artist is the single space " ") is nevertheless emitted, because
the code tests the raw values with `any([...])` before stripping. -/
theorem c2_counterexample :
    specTrimmedUsable whitespaceRow = false ∧
    extractLoop [whitespaceRow] [] = [⟨1, "", "", none, "", ""⟩] := by
  refine ⟨by decide, by decide⟩

/-- C2 (amended): a processed row is emitted if and only if at least
one of its five raw extracted values is present and non-empty BEFORE
trimming; the emitted records are exactly the kept rows' (trimmed)
fields, in order. -/
theorem c2_amended (rows : List Row) :
    (extractLoop rows []).map recFields =
      (rows.filter rowKeep).map rowFields := by
  rw [extractLoop_eq]
  simpa using extractFrom_fields rows 0

/-- C3: in every list of records returned by one search, the ids are
exactly 1, 2, ..., n in emission order, however many candidate rows
were dropped. -/
theorem c3_ids_contiguous (rows : List Row) :
    (extractRows rows).map TrackRec.id =
      List.range' 1 (extractRows rows).length := by
  rw [extractRows_eq, extractFrom_ids (rows.drop 1) 0,
    extractFrom_length (rows.drop 1) 0]

/-- The two failure classes `search_tracks` can signal:
`configError` is the `RuntimeError` raised at line 105 when `BASE_URL`
is falsy; `timeout` is a `playwright TimeoutError` from a navigation
or element-lookup step that propagates uncaught. -/
inductive ScrapeErr where
  | configError
  | timeout
deriving Repr, DecidableEq

/-- The environment one call of `search_tracks` runs against: the
configured base URL and, for each awaited page interaction, whether it
succeeds within its timeout.  `vis` gives the successive answers of
`loadmore.is_visible()` (call 0 is the outer check at line 130, calls
1 and 2 the in-loop checks at line 132). -/
structure World where
  base_url : Option String
  gotoOk : Bool
  fillOk : Bool
  pressOk : Bool
  firstVisible : Bool
  vis : Nat → Bool
  clicksOk : Bool
  readsOk : Bool
  rows : List Row

/-- Number of `loadmore.click()` activations performed by the
pagination block (lines 130-136): the outer `is_visible` gate, then a
2-round loop each of whose rounds re-checks visibility and breaks when
the control is gone. -/
def pagClicks (vis : Nat → Bool) : Nat :=
  if vis 0 then
    if vis 1 then
      if vis 2 then 2 else 1
    else 0
  else 0

/-- What one call of `search_tracks` did: its outcome, whether the
browser session was touched, whether a page was opened, and whether
that page is still open when control returns to the caller. -/
structure SearchOut where
  result : Except ScrapeErr (List TrackRec)
  browserStarted : Bool
  pageOpened : Bool
  pageOpenAtEnd : Bool
  clicks : Nat
deriving Repr

/-- Shallow embedding of `PlaywrightManager.search_tracks`
(lines 103-172).  The guard on `BASE_URL` runs before `start()`;
`goto`/`fill`/`press` timeouts propagate with the page open; the
`wait_for` timeout on the first row is caught and returns `[]` after
closing the page; a click failure during pagination propagates with
the page open, as does a timeout while reading row contents; on
success the page is closed after extraction (the `storage_state`
write is wrapped in `try/except: pass` and cannot fail the call). -/
def search_tracks (w : World) : SearchOut :=
  if !truthy w.base_url then
    ⟨.error .configError, false, false, false, 0⟩
  else if !w.gotoOk then
    ⟨.error .timeout, true, true, true, 0⟩
  else if !w.fillOk then
    ⟨.error .timeout, true, true, true, 0⟩
  else if !w.pressOk then
    ⟨.error .timeout, true, true, true, 0⟩
  else if !w.firstVisible then
    ⟨.ok [], true, true, false, 0⟩
  else if w.vis 0 && w.vis 1 && !w.clicksOk then
    ⟨.error .timeout, true, true, true, 0⟩
  else if !w.readsOk && decide (1 < w.rows.length) then
    ⟨.error .timeout, true, true, true, pagClicks w.vis⟩
  else
    ⟨.ok (extractRows w.rows), true, true, false, pagClicks w.vis⟩

/-- C4: when the query is configured and submitted but no result row
becomes visible within the wait timeout, `search_tracks` closes the
page and returns the empty list — no error is raised. -/
theorem c4_zero_results (w : World)
    (hb : truthy w.base_url = true) (hg : w.gotoOk = true)
    (hf : w.fillOk = true) (hp : w.pressOk = true)
    (hv : w.firstVisible = false) :
    (search_tracks w).result = .ok [] ∧
    (search_tracks w).pageOpenAtEnd = false := by
  simp [search_tracks, hb, hg, hf, hp, hv]

/-- A world in which everything succeeds but no result row ever
becomes visible. -/
def wNoRows : World :=
  ⟨some "https://example.test", true, true, true, false,
   fun _ => false, true, true, []⟩

theorem c4_zero_results_witness :
    (search_tracks wNoRows).result = .ok [] ∧
    (search_tracks wNoRows).pageOpenAtEnd = false :=
  c4_zero_results wNoRows (by decide) rfl rfl rfl rfl

/-- C5: when `BASE_URL` is unset (or empty), `search_tracks` raises
the configuration error before any browser interaction: the session is
not started and no page is opened, so nothing is navigated. -/
theorem c5_config_error (w : World)
    (hb : w.base_url = none ∨ w.base_url = some "") :
    (search_tracks w).result = .error .configError ∧
    (search_tracks w).browserStarted = false ∧
    (search_tracks w).pageOpened = false := by
  rcases hb with hb | hb <;> simp [search_tracks, hb, truthy]

/-- A world with no base URL configured. -/
def wNoBase : World :=
  ⟨none, true, true, true, true, fun _ => true, true, true, []⟩

theorem c5_config_error_witness :
    (search_tracks wNoBase).result = .error .configError ∧
    (search_tracks wNoBase).browserStarted = false ∧
    (search_tracks wNoBase).pageOpened = false :=
  c5_config_error wNoBase (Or.inl rfl)

/-- A world in which navigation to the base URL times out. -/
def wGotoFails : World :=
  ⟨some "https://example.test", false, true, true, true,
   fun _ => true, true, true, []⟩

/-- C6 counterexample: when `page.goto` exceeds its timeout the error
propagates to the caller while the page is STILL OPEN — `search_tracks`
has no `try/finally`, so failed navigation and lookup steps leak the
page, contrary to the claim. -/
theorem c6_counterexample :
    (search_tracks wGotoFails).result = .error .timeout ∧
    (search_tracks wGotoFails).pageOpened = true ∧
    (search_tracks wGotoFails).pageOpenAtEnd = true := by
  refine ⟨rfl, rfl, rfl⟩

/-- C6 (amended): the page is left open exactly on the paths where a
timeout error propagates to the caller; it is closed only on the two
non-propagating paths (the caught zero-results timeout and normal
completion), so a failed request does leak its open page. -/
theorem c6_amended (w : World) :
    (search_tracks w).pageOpenAtEnd = true ↔
      (search_tracks w).result = .error .timeout := by
  unfold search_tracks
  repeat' split
  all_goals simp

theorem c6_amended_witness :
    (search_tracks wGotoFails).result = .error .timeout :=
  (c6_amended wGotoFails).mp rfl

/-- C7: the "load more" control is activated at most 2 times per query
(within the claimed small bound of 2-3), and once an `is_visible`
check answers false no further activation happens: if check `j` is
false, at most `j - 1` clicks occur in total. -/
theorem c7_pagination_bound (w : World) :
    (search_tracks w).clicks ≤ 2 ∧
    (∀ j, j ≤ 2 → w.vis j = false → (search_tracks w).clicks ≤ j - 1) := by
  have hb2 : pagClicks w.vis ≤ 2 := by
    unfold pagClicks
    repeat' split
    all_goals omega
  have hj : ∀ j, j ≤ 2 → w.vis j = false → pagClicks w.vis ≤ j - 1 := by
    intro j hjle hv
    interval_cases j
    all_goals simp only [pagClicks, hv, Bool.false_eq_true, if_false, ite_self]
    all_goals (repeat' split)
    all_goals omega
  have hcl : (search_tracks w).clicks = 0 ∨
      (search_tracks w).clicks = pagClicks w.vis := by
    unfold search_tracks
    repeat' split
    all_goals simp
  rcases hcl with hcl | hcl <;> rw [hcl]
  · exact ⟨Nat.zero_le _, fun j _ _ => Nat.zero_le _⟩
  · exact ⟨hb2, hj⟩

/-- A world whose "load more" control stays visible throughout. -/
def wAllVisible : World :=
  ⟨some "https://example.test", true, true, true, true,
   fun _ => true, true, true, rowsBlankFirst⟩

theorem c7_pagination_bound_witness :
    (search_tracks wAllVisible).clicks ≤ 2 ∧
    (search_tracks wNoRows).clicks ≤ 0 - 1 :=
  ⟨(c7_pagination_bound wAllVisible).1,
   (c7_pagination_bound wNoRows).2 0 (by decide) rfl⟩

/-- Observable session state of `PlaywrightManager` for the
`start` lifecycle: whether `self.browser` / `self.context` are set,
and how many browser launches and context creations have happened. -/
structure MState where
  browser : Bool
  context : Bool
  launches : Nat
  contextsCreated : Nat
deriving Repr, DecidableEq

/-- Shallow embedding of `PlaywrightManager.start` (lines 62-87) run
to completion without interleaving: `if self.browser: return`,
otherwise launch a browser and create one context. -/
def start (s : MState) : MState :=
  if s.browser then s
  else
    { browser := true, context := true,
      launches := s.launches + 1,
      contextsCreated := s.contextsCreated + 1 }

/-- A session state in which a browser and context already exist. -/
def mStarted : MState := ⟨true, true, 1, 1⟩

/-- C8: `start` is idempotent — when a browser already exists the call
returns immediately, changing nothing (no second launch, no second
context), and running `start` twice equals running it once. -/
theorem c8_start_idempotent (s : MState) :
    (s.browser = true → start s = s) ∧ start (start s) = start s := by
  constructor
  · intro h; simp [start, h]
  · by_cases h : s.browser <;> simp [start, h]

theorem c8_start_idempotent_witness :
    start mStarted = mStarted :=
  (c8_start_idempotent mStarted).1 rfl

/-- Interleaved execution of `start` by two concurrent callers A and
B.  Each caller's run of `start` is split at its `await` suspension
points into atomic steps, tracked by a program counter:
pc 0 — about to test `self.browser`; pc 1 — passed the test, awaiting
`async_playwright().start()` / `chromium.launch()`; pc 2 — launch
returned and `self.browser` was assigned, awaiting
`new_context()`; pc 3 — returned. -/
structure SState where
  browser : Bool
  launches : Nat
  pcA : Nat
  pcB : Nat
deriving Repr, DecidableEq

/-- One atomic step of a caller: from its pc and the shared state,
the new shared browser flag, launch count and pc. -/
def stepCaller (browser : Bool) (launches pc : Nat) :
    Bool × Nat × Nat :=
  match pc with
  | 0 => if browser then (browser, launches, 3) else (browser, launches, 1)
  | 1 => (true, launches + 1, 2)
  | 2 => (browser, launches, 3)
  | _ => (browser, launches, pc)

/-- Scheduler step: run one atomic step of caller A (`true`) or
caller B (`false`). -/
def step (s : SState) (who : Bool) : SState :=
  if who then
    let r := stepCaller s.browser s.launches s.pcA
    ⟨r.1, r.2.1, r.2.2, s.pcB⟩
  else
    let r := stepCaller s.browser s.launches s.pcB
    ⟨r.1, r.2.1, s.pcA, r.2.2⟩

/-- Run a schedule (list of caller choices) from a state. -/
def run (sched : List Bool) (s : SState) : SState :=
  sched.foldl step s

/-- Both callers about to invoke `start` on a fresh manager. -/
def sInit : SState := ⟨false, 0, 0, 0⟩

/-- The racy schedule: both callers pass the `if self.browser` test
before either launch completes. -/
def racySched : List Bool := [true, false, true, false, true, false]

/-- A sequential schedule: caller A runs `start` to completion, then
caller B runs. -/
def seqSched : List Bool := [true, true, true, false]

/-- C9 counterexample: `start` holds no lock, so the interleaving in
which both first callers observe `self.browser` unset before either
launch completes ends with BOTH callers done and TWO browser
launches — not the exactly-one launch the claim promises. -/
theorem c9_counterexample :
    (run racySched sInit).launches = 2 ∧
    (run racySched sInit).pcA = 3 ∧ (run racySched sInit).pcB = 3 := by
  refine ⟨rfl, rfl, rfl⟩

/-- C9 (amended): no start-lock exists and interleaved first callers
can each launch a browser; only non-interleaved execution serialises
the launches: any number of back-to-back completed `start` calls on a
fresh manager performs exactly one launch, and the sequential
two-caller schedule launches once. -/
theorem c9_amended :
    (∀ n : Nat, (start^[n + 1] ⟨false, false, 0, 0⟩).launches = 1) ∧
    (run seqSched sInit).launches = 1 ∧
    (run seqSched sInit).pcA = 3 ∧ (run seqSched sInit).pcB = 3 := by
  refine ⟨?_, rfl, rfl, rfl⟩
  intro n
  have hfix : ∀ k : Nat,
      start^[k] (⟨true, true, 1, 1⟩ : MState) = ⟨true, true, 1, 1⟩ := by
    intro k
    induction k with
    | zero => rfl
    | succ m ih =>
        rw [Function.iterate_succ_apply]
        have h : start (⟨true, true, 1, 1⟩ : MState) = ⟨true, true, 1, 1⟩ :=
          rfl
        rw [h, ih]
  rw [Function.iterate_succ_apply]
  have h1 : start (⟨false, false, 0, 0⟩ : MState) = ⟨true, true, 1, 1⟩ := rfl
  rw [h1, hfix n]

/-- The `duration` coercion performed by pydantic's lax `int`
validation of `Track.duration` in `main.py`: an absent value fails,
a string is accepted exactly when (after surrounding whitespace) it
parses as an integer. -/
def validateDuration : Option String → Option Int
  | none => none
  | some s => (pyStrip s).toInt?

/-- A record as the `/search` endpoint's `Track` response model
(`main.py` lines 54-62) requires it: `duration` must be an `int`. -/
structure ApiTrack where
  id : Nat
  artist : String
  title : String
  duration : Int
  download : String
  stream : String
deriving Repr, DecidableEq

/-- `Track.model_validate(x)` for one scraped record: succeeds iff the
raw `duration` coerces to an integer (all other fields are strings and
validate as themselves). -/
def validateTrack (r : TrackRec) : Option ApiTrack :=
  match validateDuration r.duration with
  | none => none
  | some d => some ⟨r.id, r.artist, r.title, d, r.download, r.stream⟩

/-- The list comprehension `[Track.model_validate(x) for x in
raw_items]`: all records validate, or the first failure raises. -/
def validateAll : List TrackRec → Option (List ApiTrack)
  | [] => some []
  | r :: rs =>
      match validateTrack r, validateAll rs with
      | some t, some ts => some (t :: ts)
      | _, _ => none

/-- The validation step of the `/search` endpoint (`main.py`
lines 141-156): the comprehension runs OUTSIDE the `try` that wraps
the scraper call, so a validation error propagates out of the handler
and surfaces as HTTP 500; otherwise the validated tracks are
returned. -/
def searchEndpoint (recs : List TrackRec) : Except Nat (List ApiTrack) :=
  match validateAll recs with
  | none => .error 500
  | some ts => .ok ts

theorem validateAll_fail {recs : List TrackRec} {r : TrackRec}
    (hm : r ∈ recs) (hr : validateTrack r = none) :
    validateAll recs = none := by
  induction recs with
  | nil => cases hm
  | cons a as ih =>
      rcases List.mem_cons.mp hm with h | h
      · subst h
        cases hva : validateAll as <;> simp [validateAll, hr, hva]
      · cases hva : validateTrack a <;> simp [validateAll, hva, ih h]

/-- C10: `search_tracks` passes `duration` through as the raw
`data-duration` attribute value — each emitted record's duration is
some source row's attribute, a string or absent, never coerced or
trimmed — while the endpoint's `Track` model demands an integer; so
whenever some emitted record's duration is absent or does not parse as
an integer, the `/search` endpoint fails with HTTP 500 instead of
returning the scraped records. -/
theorem c10_duration_mismatch (rows : List Row) (recs : List TrackRec) :
    (∀ r ∈ extractRows rows, ∃ q ∈ rows, r.duration = q.duration) ∧
    (∀ r ∈ recs, validateDuration r.duration = none →
      searchEndpoint recs = .error 500) := by
  constructor
  · intro r hr
    have h : ∀ (rs : List Row) (k : Nat), ∀ t ∈ extractFrom k rs,
        ∃ q ∈ rs, t.duration = q.duration := by
      intro rs
      induction rs with
      | nil => intro k t ht; cases ht
      | cons a as ih =>
          intro k t ht
          by_cases hk : rowKeep a
          · rw [extractFrom, if_pos hk] at ht
            rcases List.mem_cons.mp ht with h | h
            · exact ⟨a, List.mem_cons_self a as, by rw [h]; rfl⟩
            · obtain ⟨q, hq, he⟩ := ih (k + 1) t h
              exact ⟨q, List.mem_cons_of_mem a hq, he⟩
          · rw [extractFrom, if_neg hk] at ht
            obtain ⟨q, hq, he⟩ := ih k t ht
            exact ⟨q, List.mem_cons_of_mem a hq, he⟩
    rw [extractRows_eq] at hr
    obtain ⟨q, hq, he⟩ := h (rows.drop 1) 0 r hr
    exact ⟨q, List.mem_of_mem_drop hq, he⟩
  · intro r hm hd
    have hfail : validateTrack r = none := by
      simp [validateTrack, hd]
    simp [searchEndpoint, validateAll_fail hm hfail]

/-- A record whose duration attribute was absent on the page. -/
def noDurationRec : TrackRec := ⟨1, "a", "t", none, "d", "s"⟩

theorem c10_duration_mismatch_witness :
    searchEndpoint [noDurationRec] = .error 500 ∧
    (∃ q ∈ rowsBlankFirst,
      (⟨1, "", "t1", none, "", ""⟩ : TrackRec).duration = q.duration) :=
  ⟨(c10_duration_mismatch [] [noDurationRec]).2 noDurationRec
     (List.mem_singleton.mpr rfl) rfl,
   (c10_duration_mismatch rowsBlankFirst []).1
     ⟨1, "", "t1", none, "", ""⟩ (by decide)⟩

end Scout
